import Mathlib

/-!
Verification development for the SplitEat half-order session coordinator.

The frontend utilities (validateMobile, the getTimeRemaining variants, the
half-order listing filters) are embedded directly from the JavaScript source.
The backend coordinator service (half_order_service.py) is not part of the
source tree, so its operations are modelled from the specification, as noted
on each definition.
-/

namespace SplitEat

/-! ## JavaScript date values

Model of the JavaScript values that reach the getTimeRemaining helpers.
A JS number that may be NaN is modelled as an Option Int (none = NaN);
date values are integer milliseconds since the epoch. -/

/-- A JavaScript value passed as the expiresAt argument: null, undefined,
a numeric timestamp, the empty string, an unparseable nonempty string,
a parseable date string with time value ms, or a Date object. -/
inductive JsDateInput
  | jnull
  | jundef
  | jnum (ms : Int)
  | jstrEmpty
  | jstrInvalid
  | jstrValid (ms : Int)
  | jdate (ms : Int)
deriving DecidableEq, Repr

/-- Result of the JavaScript expression new Date(x) followed by valueOf:
none models an Invalid Date (whose time value is NaN). -/
def jsNewDate : JsDateInput → Option Int
  | .jnull => some 0
  | .jundef => none
  | .jnum ms => some ms
  | .jstrEmpty => none
  | .jstrInvalid => none
  | .jstrValid ms => some ms
  | .jdate ms => some ms

/-- Truthiness of the input value, as tested by the guard if (!expiresAt). -/
def jsFalsy : JsDateInput → Bool
  | .jnull => true
  | .jundef => true
  | .jnum ms => decide (ms = 0)
  | .jstrEmpty => true
  | .jstrInvalid => false
  | .jstrValid _ => false
  | .jdate _ => false

/-- Embeds getTimeRemaining from frontend/src/utils/timezone.js lines 33-43:
guard if (!expiresAt) return 0, then Math.max(0, Math.floor((expiry - now)/1000/60)).
The result is whole minutes; none models NaN (Invalid Date arithmetic). -/
def getTimeRemainingTimezone (i : JsDateInput) (now : Int) : Option Int :=
  if jsFalsy i then some 0
  else (jsNewDate i).map (fun e => max 0 (Int.fdiv (e - now) 60000))

/-- Embeds the second, textually identical copy of getTimeRemaining that the
helpers file concatenated into timezone.js contributes at lines 96-106. -/
def getTimeRemainingTimezoneCopy (i : JsDateInput) (now : Int) : Option Int :=
  if jsFalsy i then some 0
  else (jsNewDate i).map (fun e => max 0 (Int.fdiv (e - now) 60000))

/-- Embeds the inline getTimeRemaining of the plain menu page (part_005 lines
130-135): no falsiness guard, new Date(expiresAt) applied unconditionally,
then Math.max(0, Math.floor(diff/1000/60)). -/
def getTimeRemainingMenuInline (i : JsDateInput) (now : Int) : Option Int :=
  (jsNewDate i).map (fun e => max 0 (Int.fdiv (e - now) 60000))

/-- Embeds the inline getTimeRemaining of the enhanced menu page (part_005
lines 620-625): guard if (!expiresAt) return 0, then
Math.floor(Math.max(0, expiry.getTime() - now.getTime())/1000/60). -/
def getTimeRemainingEnhancedInline (i : JsDateInput) (now : Int) : Option Int :=
  if jsFalsy i then some 0
  else (jsNewDate i).map (fun e => Int.fdiv (max 0 (e - now)) 60000)

/-- JavaScript comparison x > 0 where x may be NaN: NaN > 0 is false. -/
def jsGtZero : Option Int → Bool
  | none => false
  | some k => decide (0 < k)

/-! ## Mobile number validation (frontend/src/utils/helpers.js lines 44-47) -/

/-- Embeds validateMobile: the regular expression test of a string against
the anchored pattern of one character in the range 6-9 followed by exactly
nine decimal digits. -/
def validateMobile (mobile : String) : Bool :=
  match mobile.data with
  | [] => false
  | c :: rest =>
    ('6' ≤ c && c ≤ '9') && rest.length == 9 && rest.all (fun d => '0' ≤ d && d ≤ '9')

/-- Outcome of a client half-order flow before any network request is made. -/
inductive ClientAction
  | showValidationError
  | sendRequest
deriving DecidableEq, Repr

/-- Embeds the mobile-number gate of createHalfOrder (part_006 lines 646-650):
when validateMobile rejects the number the handler shows an error toast and
returns before the POST request is issued. -/
def createHalfOrderMobileGate (customerMobile : String) : ClientAction :=
  if validateMobile customerMobile then ClientAction.sendRequest
  else ClientAction.showValidationError

/-- Embeds the mobile-number gate of joinHalfOrder (part_006 lines 668-672):
when validateMobile rejects the number the handler shows an error toast and
returns before the POST request is issued. -/
def joinHalfOrderMobileGate (customerMobile : String) : ClientAction :=
  if validateMobile customerMobile then ClientAction.sendRequest
  else ClientAction.showValidationError

/-! ## Coordinator data model

Modelled from the spec: the SessionCoordinator service
(backend/services/half_order_service.py and routers/half_order_router.py)
is absent from the source tree; its data model and operations follow the
specification sections 3 and 4.1 word for word. Timestamps are integers in
minutes under the single timezone policy. -/

/-- Status of a HalfOrderSession, per the spec section 4.1 state machine. -/
inductive SStatus
  | ACTIVE
  | JOINED
  | EXPIRED
  | CANCELLED
deriving DecidableEq, Repr

/-- Modelled from the spec: the HalfOrderSession record of section 3. -/
structure Session where
  id : Nat
  restaurant_id : Nat
  table_no : String
  menu_item_id : Nat
  menu_item_name : String
  customer_name : String
  customer_mobile : String
  status : SStatus
  created_at : Int
  expires_at : Int
  joined_by_table_no : Option String
  joined_by_customer_name : Option String
  joined_at : Option Int
deriving DecidableEq, Repr

/-- Status of a PairedOrder, per the spec section 3. -/
inductive PStatus
  | PENDING
  | COMPLETED
  | CANCELLED
deriving DecidableEq, Repr

/-- Modelled from the spec: the PairedOrder record of section 3, one row per
successful join against a session. -/
structure PairedOrder where
  id : Nat
  session_id : Nat
  restaurant_id : Nat
  menu_item_id : Nat
  menu_item_name : String
  total_price : Int
  joiner_table_no : String
  joiner_customer_name : String
  joiner_customer_mobile : String
  status : PStatus
  created_at : Int
  completed_at : Option Int
  order_id : Option Nat
deriving DecidableEq, Repr

/-- Modelled from the spec: the persistent store owned by the coordinator,
one session table and one pairing table plus identifier counters. -/
structure CoordState where
  sessions : List Session
  pairs : List PairedOrder
  nextSessionId : Nat
  nextPairId : Nat
deriving DecidableEq, Repr

/-- The empty store, before any session is created. -/
def initState : CoordState := ⟨[], [], 1, 1⟩

/-- Modelled from the spec: injected configuration (section 6) — session TTL
and customer-cancel window, in minutes. -/
structure Config where
  ttlMinutes : Int
  cancelWindowMinutes : Int
deriving DecidableEq, Repr

/-- Default configuration: HALF_ORDER_EXPIRY_MINUTES=30 from the backend
environment file shown in the setup guide, and the five-minute customer
cancellation window recorded in the test-result log. -/
def defaultConfig : Config := ⟨30, 5⟩

/-- Error raised by CreateSession, carrying the identifying triple
(session id, table number, customer name) of each blocking live session. -/
inductive CreateErr
  | DuplicateSessionError (existing : List (Nat × String × String))
deriving DecidableEq, Repr

/-- Errors raised by Join, per the spec sections 4.1 and 6. -/
inductive JoinErr
  | SessionNotFoundError
  | SessionNotJoinableError
  | SessionExpiredError
  | AlreadyJoinedError
  | SelfJoinError
deriving DecidableEq, Repr

/-- Errors raised by Cancel, per the spec sections 4.1 and 6. -/
inductive CancelErr
  | SessionNotFoundError
  | SessionNotCancellableError
  | CancelWindowExpiredError
deriving DecidableEq, Repr

/-- Lookup of a session row by primary key. -/
def findSession (st : CoordState) (sid : Nat) : Option Session :=
  st.sessions.find? (fun s => decide (s.id = sid))

/-- Update of the session row with the given primary key. -/
def setSession (st : CoordState) (sid : Nat) (f : Session → Session) : CoordState :=
  { st with sessions := st.sessions.map (fun s => if s.id = sid then f s else s) }

/-- Existence check for a PairedOrder row with the given
(session_id, joiner_table_no) key, the duplicate-join guard of spec
section 4.1 step 4. -/
def hasPairFor (st : CoordState) (sid : Nat) (jt : String) : Bool :=
  st.pairs.any (fun p => decide (p.session_id = sid ∧ p.joiner_table_no = jt))

/-- Modelled from the spec: CreateSession (section 4.1). Step 1 queries the
sessions with matching restaurant and menu item and ACTIVE status; step 2
keeps those whose expires_at is still in the future; step 3 fails with
DuplicateSessionError carrying id, table and customer name of every blocker;
step 4 inserts a fresh ACTIVE row with created_at = now and
expires_at = now + ttl. -/
def createSession (cfg : Config) (st : CoordState) (r : Nat) (t : String)
    (cname cmobile : String) (m : Nat) (mname : String) (now : Int) :
    CoordState × Except CreateErr Session :=
  let activeMatches := st.sessions.filter
    (fun s => decide (s.restaurant_id = r ∧ s.menu_item_id = m ∧ s.status = SStatus.ACTIVE))
  let liveMatches := activeMatches.filter (fun s => decide (now < s.expires_at))
  if liveMatches.isEmpty then
    let sess : Session :=
      { id := st.nextSessionId, restaurant_id := r, table_no := t,
        menu_item_id := m, menu_item_name := mname,
        customer_name := cname, customer_mobile := cmobile,
        status := SStatus.ACTIVE, created_at := now, expires_at := now + cfg.ttlMinutes,
        joined_by_table_no := none, joined_by_customer_name := none, joined_at := none }
    ({ st with sessions := st.sessions ++ [sess], nextSessionId := st.nextSessionId + 1 },
     Except.ok sess)
  else
    (st, Except.error (CreateErr.DuplicateSessionError
      (liveMatches.map (fun s => (s.id, s.table_no, s.customer_name)))))

/-- Modelled from the spec: Join (section 4.1), executed while holding the
per-session row lock. Step 2 fails with SessionNotJoinableError unless the
status is ACTIVE; step 3 fails with SessionExpiredError when
expires_at ≤ now and transitions the row to EXPIRED in the same transaction;
step 4 fails with AlreadyJoinedError when a PairedOrder with this
(session_id, joiner_table_no) exists; step 5 fails with SelfJoinError when
the joiner is the originating table; steps 6-7 insert the PairedOrder with
total_price the sum of both half-prices and flip the session to JOINED. -/
def join (st : CoordState) (sid : Nat) (jt jname jmobile : String)
    (halfPrice : Int) (now : Int) : CoordState × Except JoinErr PairedOrder :=
  match findSession st sid with
  | none => (st, Except.error JoinErr.SessionNotFoundError)
  | some s =>
    if s.status = SStatus.ACTIVE then
      if now < s.expires_at then
        if hasPairFor st sid jt then
          (st, Except.error JoinErr.AlreadyJoinedError)
        else if jt = s.table_no then
          (st, Except.error JoinErr.SelfJoinError)
        else
          let po : PairedOrder :=
            { id := st.nextPairId, session_id := sid,
              restaurant_id := s.restaurant_id, menu_item_id := s.menu_item_id,
              menu_item_name := s.menu_item_name, total_price := halfPrice + halfPrice,
              joiner_table_no := jt, joiner_customer_name := jname,
              joiner_customer_mobile := jmobile,
              status := PStatus.PENDING, created_at := now,
              completed_at := none, order_id := none }
          let st1 := setSession st sid (fun x =>
            { x with status := SStatus.JOINED, joined_by_table_no := some jt,
                     joined_by_customer_name := some jname, joined_at := some now })
          ({ st1 with pairs := st1.pairs ++ [po], nextPairId := st1.nextPairId + 1 },
           Except.ok po)
      else
        (setSession st sid (fun x => { x with status := SStatus.EXPIRED }),
         Except.error JoinErr.SessionExpiredError)
    else
      (st, Except.error JoinErr.SessionNotJoinableError)

/-- Modelled from the spec: Cancel (section 4.1). The row is locked, the
status must be ACTIVE, a privileged staff actor may always cancel, a
customer only within the cancel window measured from created_at. -/
def cancel (cfg : Config) (st : CoordState) (sid : Nat) (privileged : Bool)
    (now : Int) : CoordState × Except CancelErr Unit :=
  match findSession st sid with
  | none => (st, Except.error CancelErr.SessionNotFoundError)
  | some s =>
    if s.status = SStatus.ACTIVE then
      if privileged = true then
        (setSession st sid (fun x => { x with status := SStatus.CANCELLED }), Except.ok ())
      else if now - s.created_at ≤ cfg.cancelWindowMinutes then
        (setSession st sid (fun x => { x with status := SStatus.CANCELLED }), Except.ok ())
      else
        (st, Except.error CancelErr.CancelWindowExpiredError)
    else
      (st, Except.error CancelErr.SessionNotCancellableError)

/-- Modelled from the spec: one tick of the ExpiryScheduler (section 4.2),
transitioning every ACTIVE row past its expiry to EXPIRED. -/
def expireSweep (st : CoordState) (now : Int) : CoordState :=
  { st with sessions := st.sessions.map (fun s =>
      if s.status = SStatus.ACTIVE ∧ s.expires_at ≤ now
      then { s with status := SStatus.EXPIRED } else s) }

/-- Modelled from the spec: ListActive (section 6), the read-only snapshot of
rows stored as ACTIVE for a restaurant, backing GET /api/half-order/active. -/
def listActive (st : CoordState) (r : Nat) : List Session :=
  st.sessions.filter (fun s => decide (s.restaurant_id = r ∧ s.status = SStatus.ACTIVE))

/-! ## Frontend listing paths (embedded from the source) -/

/-- Embeds the fetchHalfOrders filter of the optimized menu page (part_000
lines 51-61): the sessions returned by the active endpoint are kept only
when new Date(h.expires_at) is strictly after new Date(). -/
def fetchHalfOrdersMenuOptimized (st : CoordState) (r : Nat) (now : Int) : List Session :=
  (listActive st r).filter (fun h => decide (now < h.expires_at))

/-- Embeds the fetchHalfOrders filter of the enhanced menu page (part_005
lines 756-761): the sessions returned by the active endpoint are kept only
when the inline getTimeRemaining applied to the expires_at date string is
strictly positive. -/
def fetchHalfOrdersMenuEnhanced (st : CoordState) (r : Nat) (now : Int) : List Session :=
  (listActive st r).filter (fun h =>
    jsGtZero (getTimeRemainingEnhancedInline (JsDateInput.jstrValid h.expires_at) now))

/-- Embeds the fetchHalfOrders filter of the counter dashboard (part_008
lines 107-114): records are kept when their status field equals ACTIVE,
with no expiry comparison. -/
def counterDashboardHalfOrderFilter (o : Session) : Bool :=
  decide (o.status = SStatus.ACTIVE)

/-- Embeds the counter dashboard listing path (part_008 lines 107-114): the
response list filtered on status alone. -/
def fetchHalfOrdersCounter (resp : List Session) : List Session :=
  resp.filter counterDashboardHalfOrderFilter

/-! ## Sequenced joins

The spec (section 5) totally orders all operations against one session by
row-lock acquisition, so any interleaving of N concurrent Join calls is
observationally equal to running them in some sequence; runJoins executes
one such sequence and collects every caller's outcome. -/

/-- Arguments one joining caller supplies to Join. -/
structure JoinReq where
  table_no : String
  customer_name : String
  customer_mobile : String
  halfPrice : Int
  now : Int
deriving DecidableEq, Repr

/-- Boolean success test for an Except outcome. -/
def exceptOk {ε α : Type} : Except ε α → Bool
  | Except.ok _ => true
  | Except.error _ => false

/-- Sequential execution of a list of Join calls against one session,
returning the final store and each caller's outcome in order. -/
def runJoins (sid : Nat) : CoordState → List JoinReq → CoordState × List (Except JoinErr PairedOrder)
  | st, [] => (st, [])
  | st, r :: rs =>
    let p := join st sid r.table_no r.customer_name r.customer_mobile r.halfPrice r.now
    let q := runJoins sid p.1 rs
    (q.1, p.2 :: q.2)

/-- Reachable coordinator states: the empty store is reachable, and every
operation of the coordinator (CreateSession, Join, Cancel, one scheduler
sweep) maps a reachable state to a reachable state. -/
inductive Reach (cfg : Config) : CoordState → Prop
  | init : Reach cfg initState
  | stepCreate (st : CoordState) (r : Nat) (t cn cm : String) (m : Nat) (mn : String) (now : Int) :
      Reach cfg st → Reach cfg (createSession cfg st r t cn cm m mn now).1
  | stepJoin (st : CoordState) (sid : Nat) (jt jn jm : String) (hp now : Int) :
      Reach cfg st → Reach cfg (join st sid jt jn jm hp now).1
  | stepCancel (st : CoordState) (sid : Nat) (priv : Bool) (now : Int) :
      Reach cfg st → Reach cfg (cancel cfg st sid priv now).1
  | stepSweep (st : CoordState) (now : Int) :
      Reach cfg st → Reach cfg (expireSweep st now)

/-! ## Invariant predicates -/

/-- A session blocks creation of a new session for (restaurant r, item m) at
time now: it matches the pair, is stored ACTIVE and is not yet expired. -/
def blocksCreation (r m : Nat) (now : Int) (s : Session) : Prop :=
  s.restaurant_id = r ∧ s.menu_item_id = m ∧ s.status = SStatus.ACTIVE ∧ now < s.expires_at

/-- Decidability of the blocking predicate. -/
instance blocksCreationDecidable (r m : Nat) (now : Int) (s : Session) :
    Decidable (blocksCreation r m now s) := by
  unfold blocksCreation
  infer_instance

/-- The duplicate-join invariant: no two PairedOrder rows share the same
(session_id, joiner_table_no) key. -/
def pairsKeyUnique (st : CoordState) : Prop :=
  st.pairs.Pairwise
    (fun p q => ¬(p.session_id = q.session_id ∧ p.joiner_table_no = q.joiner_table_no))

/-- The timestamp invariant: every stored session satisfies
created_at < expires_at. -/
def timestampsOrdered (st : CoordState) : Prop :=
  ∀ s ∈ st.sessions, s.created_at < s.expires_at

/-! ## Concrete fixtures for closed instantiations -/

/-- Concrete ACTIVE session: table T1 advertises menu item 1 at time 0 with a
thirty-minute expiry. -/
def sessT1 : Session :=
  { id := 1, restaurant_id := 1, table_no := "T1", menu_item_id := 1,
    menu_item_name := "Paneer Tikka", customer_name := "Rajesh Kumar",
    customer_mobile := "9876543210", status := SStatus.ACTIVE,
    created_at := 0, expires_at := 30,
    joined_by_table_no := none, joined_by_customer_name := none, joined_at := none }

/-- Store holding the single ACTIVE fixture session. -/
def stOne : CoordState := ⟨[sessT1], [], 2, 1⟩

/-- Store after table T2 successfully joins the fixture session at time 1. -/
def stJoined : CoordState := (join stOne 1 "T2" "Priya Sharma" "9876543211" 100 1).1

/-- Stale fixture session: stored status still ACTIVE but the expiry at 5 is
already past once the clock reads 10. -/
def sessStale : Session := { sessT1 with id := 2, expires_at := 5 }

/-- Store holding only the stale fixture session. -/
def stStale : CoordState := ⟨[sessStale], [], 3, 1⟩

/-- Store produced by one CreateSession call on the empty store at time 0. -/
def stCreated : CoordState :=
  (createSession defaultConfig initState 1 "T1" "Rajesh Kumar" "9876543210" 1
    "Paneer Tikka" 0).1

/-- Concurrent join request by table T2. -/
def reqT2 : JoinReq := ⟨"T2", "Priya Sharma", "9876543211", 100, 1⟩

/-- Concurrent join request by table T3. -/
def reqT3 : JoinReq := ⟨"T3", "Amit Verma", "9876543212", 100, 1⟩

/-! ## Helper lemmas -/

/-- Taking the floor of a division by a positive constant commutes with
clamping at zero. -/
theorem fdiv_max_zero (d : Int) :
    Int.fdiv (max 0 d) 60000 = max 0 (Int.fdiv d 60000) := by
  rw [Int.fdiv_eq_ediv _ (by norm_num : (0:Int) ≤ 60000),
      Int.fdiv_eq_ediv _ (by norm_num : (0:Int) ≤ 60000)]
  rcases le_or_lt 0 d with h | h
  · rw [max_eq_right h, max_eq_right (Int.ediv_nonneg h (by norm_num))]
  · rw [max_eq_left h.le, Int.zero_ediv,
        max_eq_left (Int.ediv_neg' h (by norm_num)).le]

/-- Clamping at zero annihilates the floored division of a nonpositive
dividend. -/
theorem max_zero_fdiv_nonpos (d : Int) (h : d ≤ 0) :
    max 0 (Int.fdiv d 60000) = 0 := by
  rw [← fdiv_max_zero, max_eq_left h, Int.fdiv_eq_ediv _ (by norm_num : (0:Int) ≤ 60000),
      Int.zero_ediv]

/-- Floored division of a nonpositive dividend by the positive constant is
nonpositive. -/
theorem fdiv_nonpos_60000 (d : Int) (h : d ≤ 0) : Int.fdiv d 60000 ≤ 0 := by
  rw [Int.fdiv_eq_ediv _ (by norm_num : (0:Int) ≤ 60000)]
  rcases lt_or_eq_of_le h with h1 | h1
  · exact (Int.ediv_neg' h1 (by norm_num)).le
  · rw [h1, Int.zero_ediv]

/-- Mapping an id-preserving update over a session list commutes with lookup
by that id. -/
theorem find_map_update (l : List Session) (sid : Nat) (f : Session → Session)
    (hf : ∀ x, (f x).id = x.id) :
    (l.map (fun s => if s.id = sid then f s else s)).find? (fun s => decide (s.id = sid))
      = (l.find? (fun s => decide (s.id = sid))).map f := by
  induction l with
  | nil => rfl
  | cons h t ih =>
    by_cases hh : h.id = sid
    · rw [List.map_cons, if_pos hh,
          List.find?_cons_of_pos _ (by simp [hf h, hh]),
          List.find?_cons_of_pos _ (by simp [hh]), Option.map_some']
    · rw [List.map_cons, if_neg hh,
          List.find?_cons_of_neg _ (by simp [hh]),
          List.find?_cons_of_neg _ (by simp [hh]), ih]

/-- Session lookup after an id-preserving row update. -/
theorem findSession_setSession (st : CoordState) (sid : Nat) (f : Session → Session)
    (hf : ∀ x, (f x).id = x.id) :
    findSession (setSession st sid f) sid = (findSession st sid).map f :=
  find_map_update st.sessions sid f hf

/-- CreateSession never touches the pairing table. -/
theorem createSession_pairs (cfg : Config) (st : CoordState) (r : Nat) (t cn cm : String)
    (m : Nat) (mn : String) (now : Int) :
    (createSession cfg st r t cn cm m mn now).1.pairs = st.pairs := by
  unfold createSession
  dsimp only
  split <;> rfl

/-- Cancel never touches the pairing table. -/
theorem cancel_pairs (cfg : Config) (st : CoordState) (sid : Nat) (priv : Bool) (now : Int) :
    (cancel cfg st sid priv now).1.pairs = st.pairs := by
  unfold cancel
  cases findSession st sid with
  | none => rfl
  | some s =>
    dsimp only
    split
    · split
      · rfl
      · split <;> rfl
    · rfl

/-- The scheduler sweep never touches the pairing table. -/
theorem expireSweep_pairs (st : CoordState) (now : Int) :
    (expireSweep st now).pairs = st.pairs := rfl

/-- The duplicate-join guard read as a universal statement over the pairing
table. -/
theorem hasPairFor_eq_false_iff (st : CoordState) (sid : Nat) (jt : String) :
    hasPairFor st sid jt = false ↔
      ∀ p ∈ st.pairs, ¬(p.session_id = sid ∧ p.joiner_table_no = jt) := by
  unfold hasPairFor
  rw [← Bool.not_eq_true, List.any_eq_true]
  simp

/-- Join against a session whose status is not ACTIVE fails with the
conflict error and leaves the store untouched. -/
theorem join_not_active (st : CoordState) (sid : Nat) (s : Session) (jt jn jm : String)
    (hp now : Int) (hfind : findSession st sid = some s)
    (hs : s.status ≠ SStatus.ACTIVE) :
    join st sid jt jn jm hp now = (st, Except.error JoinErr.SessionNotJoinableError) := by
  unfold join
  rw [hfind]
  dsimp only
  rw [if_neg hs]

/-- Join against an ACTIVE session past its expiry fails with
SessionExpiredError and transitions the row to EXPIRED. -/
theorem join_expired_lazy (st : CoordState) (sid : Nat) (s : Session) (jt jn jm : String)
    (hp now : Int) (hfind : findSession st sid = some s)
    (hact : s.status = SStatus.ACTIVE) (hexp : s.expires_at ≤ now) :
    join st sid jt jn jm hp now =
      (setSession st sid (fun x => { x with status := SStatus.EXPIRED }),
       Except.error JoinErr.SessionExpiredError) := by
  unfold join
  rw [hfind]
  dsimp only
  rw [if_pos hact, if_neg (not_lt.mpr hexp)]

/-- Join against an ACTIVE, unexpired session for which a PairedOrder with
this joiner table already exists fails with AlreadyJoinedError and leaves
the store untouched. -/
theorem join_already_joined (st : CoordState) (sid : Nat) (s : Session) (jt jn jm : String)
    (hp now : Int) (hfind : findSession st sid = some s)
    (hact : s.status = SStatus.ACTIVE) (hlive : now < s.expires_at)
    (hpair : hasPairFor st sid jt = true) :
    join st sid jt jn jm hp now = (st, Except.error JoinErr.AlreadyJoinedError) := by
  unfold join
  rw [hfind]
  dsimp only
  rw [if_pos hact, if_pos hlive, if_pos hpair]

/-- Successful Join: the full shape of the resulting store and pairing. -/
theorem join_success (st : CoordState) (sid : Nat) (s : Session) (jt jn jm : String)
    (hp now : Int) (hfind : findSession st sid = some s)
    (hact : s.status = SStatus.ACTIVE) (hlive : now < s.expires_at)
    (hnopair : hasPairFor st sid jt = false) (hnotself : jt ≠ s.table_no) :
    join st sid jt jn jm hp now =
      ({ setSession st sid (fun x =>
            { x with status := SStatus.JOINED, joined_by_table_no := some jt,
                     joined_by_customer_name := some jn, joined_at := some now }) with
          pairs := st.pairs ++
            [{ id := st.nextPairId, session_id := sid,
               restaurant_id := s.restaurant_id, menu_item_id := s.menu_item_id,
               menu_item_name := s.menu_item_name, total_price := hp + hp,
               joiner_table_no := jt, joiner_customer_name := jn,
               joiner_customer_mobile := jm, status := PStatus.PENDING,
               created_at := now, completed_at := none, order_id := none }],
          nextPairId := st.nextPairId + 1 },
       Except.ok
         { id := st.nextPairId, session_id := sid,
           restaurant_id := s.restaurant_id, menu_item_id := s.menu_item_id,
           menu_item_name := s.menu_item_name, total_price := hp + hp,
           joiner_table_no := jt, joiner_customer_name := jn,
           joiner_customer_mobile := jm, status := PStatus.PENDING,
           created_at := now, completed_at := none, order_id := none }) := by
  unfold join
  rw [hfind]
  dsimp only
  rw [if_pos hact, if_pos hlive, if_neg (by simp [hnopair]), if_neg hnotself]
  rfl

/-- Running any sequence of joins against a session that is no longer ACTIVE
returns the conflict error to every caller and leaves the store untouched. -/
theorem runJoins_not_joinable (sid : Nat) (st : CoordState) (s : Session)
    (hfind : findSession st sid = some s) (hs : s.status ≠ SStatus.ACTIVE)
    (rs : List JoinReq) :
    runJoins sid st rs =
      (st, rs.map (fun _ => Except.error JoinErr.SessionNotJoinableError)) := by
  induction rs with
  | nil => rfl
  | cons r t ih =>
    have hj := join_not_active st sid s r.table_no r.customer_name r.customer_mobile
      r.halfPrice r.now hfind hs
    simp only [runJoins, hj, List.map_cons]
    rw [ih]

/-- A list of conflict errors contains no successful outcome. -/
theorem countP_conflict_errors (rs : List JoinReq) :
    (rs.map (fun _ => (Except.error JoinErr.SessionNotJoinableError :
        Except JoinErr PairedOrder))).countP exceptOk = 0 := by
  induction rs with
  | nil => rfl
  | cons r t ih => simp [List.countP_cons, exceptOk, ih]

/-- C1: for every half-order session that is ACTIVE and unexpired and every
nonempty set of concurrent Join calls against it with distinct table numbers
(none the creator's own), executed in the serial order imposed by the
per-session row lock, exactly one call succeeds, the session ends JOINED,
exactly one PairedOrder row for the session is appended (none lost or
duplicated), and every other call fails with the SessionNotJoinableError
conflict error. -/
theorem concurrent_joins_exactly_one
    (st : CoordState) (sid : Nat) (s : Session) (reqs : List JoinReq)
    (hfind : findSession st sid = some s)
    (hact : s.status = SStatus.ACTIVE)
    (hlive : ∀ r ∈ reqs, r.now < s.expires_at)
    (hnopair : ∀ p ∈ st.pairs, p.session_id ≠ sid)
    (hdistinct : reqs.Pairwise (fun a b => a.table_no ≠ b.table_no))
    (hnotself : ∀ r ∈ reqs, r.table_no ≠ s.table_no)
    (hne : reqs ≠ []) :
    (runJoins sid st reqs).2.countP exceptOk = 1 ∧
    (∃ s2, findSession (runJoins sid st reqs).1 sid = some s2 ∧
       s2.status = SStatus.JOINED) ∧
    (∃ po, (runJoins sid st reqs).1.pairs = st.pairs ++ [po] ∧ po.session_id = sid) ∧
    (∀ res ∈ (runJoins sid st reqs).2,
       exceptOk res = true ∨ res = Except.error JoinErr.SessionNotJoinableError) := by
  cases reqs with
  | nil => exact absurd rfl hne
  | cons r rs =>
    have hr_live : r.now < s.expires_at := hlive r (by simp)
    have hr_self : r.table_no ≠ s.table_no := hnotself r (by simp)
    have hr_nopair : hasPairFor st sid r.table_no = false := by
      rw [hasPairFor_eq_false_iff]
      intro p hp hk
      exact hnopair p hp hk.1
    have hj := join_success st sid s r.table_no r.customer_name r.customer_mobile
      r.halfPrice r.now hfind hact hr_live hr_nopair hr_self
    have hfindA : findSession
        ({ setSession st sid (fun x =>
              { x with status := SStatus.JOINED, joined_by_table_no := some r.table_no,
                       joined_by_customer_name := some r.customer_name,
                       joined_at := some r.now }) with
            pairs := st.pairs ++
              [{ id := st.nextPairId, session_id := sid,
                 restaurant_id := s.restaurant_id, menu_item_id := s.menu_item_id,
                 menu_item_name := s.menu_item_name,
                 total_price := r.halfPrice + r.halfPrice,
                 joiner_table_no := r.table_no, joiner_customer_name := r.customer_name,
                 joiner_customer_mobile := r.customer_mobile, status := PStatus.PENDING,
                 created_at := r.now, completed_at := none, order_id := none }],
            nextPairId := st.nextPairId + 1 }) sid =
        some { s with
          status := SStatus.JOINED, joined_by_table_no := some r.table_no,
          joined_by_customer_name := some r.customer_name,
          joined_at := some r.now } := by
      have h2 := findSession_setSession st sid (fun x =>
        { x with status := SStatus.JOINED, joined_by_table_no := some r.table_no,
                 joined_by_customer_name := some r.customer_name,
                 joined_at := some r.now }) (fun x => rfl)
      rw [hfind] at h2
      exact h2
    simp only [runJoins, hj]
    rw [runJoins_not_joinable sid _ _ hfindA (by simp) rs]
    refine ⟨?_, ⟨_, hfindA, rfl⟩, ⟨_, rfl, rfl⟩, ?_⟩
    · simp [List.countP_cons, exceptOk, countP_conflict_errors rs]
    · intro res hres
      rcases List.mem_cons.mp hres with h | h
      · left; rw [h]; rfl
      · right
        rcases List.mem_map.mp h with ⟨x, _, hx⟩
        exact hx.symm

/-! ## Frontend utility claims -/

/-- C9 counterexample: at the JavaScript value undefined the plain menu-page
inline getTimeRemaining yields NaN (modelled none) while the timezone
utility returns 0, so the four numeric definitions are not extensionally
equal. -/
theorem getTimeRemaining_undef_mismatch :
    getTimeRemainingMenuInline JsDateInput.jundef 0 = none ∧
    getTimeRemainingTimezone JsDateInput.jundef 0 = some 0 ∧
    getTimeRemainingTimezoneCopy JsDateInput.jundef 0 = some 0 ∧
    getTimeRemainingEnhancedInline JsDateInput.jundef 0 = some 0 ∧
    getTimeRemainingMenuInline JsDateInput.jundef 0 ≠
      getTimeRemainingTimezone JsDateInput.jundef 0 := by
  refine ⟨rfl, rfl, rfl, rfl, by decide⟩

/-- C9 (amended): the two timezone.js copies and the enhanced-menu inline
definition of getTimeRemaining are extensionally equal on every input, and
the plain menu-page inline definition agrees with them on every input other
than undefined and the empty string whenever the current clock is at or
after the epoch. -/
theorem getTimeRemaining_agreement :
    (∀ i now, getTimeRemainingTimezoneCopy i now = getTimeRemainingTimezone i now) ∧
    (∀ i now, getTimeRemainingEnhancedInline i now = getTimeRemainingTimezone i now) ∧
    (∀ i now, 0 ≤ now → i ≠ JsDateInput.jundef → i ≠ JsDateInput.jstrEmpty →
       getTimeRemainingMenuInline i now = getTimeRemainingTimezone i now) := by
  refine ⟨fun i now => rfl, fun i now => ?_, fun i now h0 hnu hne => ?_⟩
  · unfold getTimeRemainingEnhancedInline getTimeRemainingTimezone
    cases i <;> simp [jsFalsy, jsNewDate, fdiv_max_zero]
  · unfold getTimeRemainingMenuInline getTimeRemainingTimezone
    cases i with
    | jnull =>
      simp [jsFalsy, jsNewDate]
      exact fdiv_nonpos_60000 _ (by omega)
    | jundef => exact absurd rfl hnu
    | jnum ms =>
      by_cases hz : ms = 0
      · subst hz
        simp [jsFalsy, jsNewDate]
        exact fdiv_nonpos_60000 _ (by omega)
      · simp [jsFalsy, jsNewDate, hz]
    | jstrEmpty => exact absurd rfl hne
    | jstrInvalid => simp [jsFalsy, jsNewDate]
    | jstrValid ms => simp [jsFalsy, jsNewDate]
    | jdate ms => simp [jsFalsy, jsNewDate]

/-- Witness: the amended C9 agreement evaluated at a parseable date string
two minutes after the epoch with the clock at the epoch. -/
theorem getTimeRemaining_agreement_witness :
    getTimeRemainingMenuInline (JsDateInput.jstrValid 120000) 0 =
      getTimeRemainingTimezone (JsDateInput.jstrValid 120000) 0 :=
  getTimeRemaining_agreement.2.2 (JsDateInput.jstrValid 120000) 0
    (by decide) (by decide) (by decide)

/-- C10: validateMobile accepts a string exactly when it is ten decimal
digits whose first digit lies between 6 and 9, and both the create-half-order
and the join-half-order client flows stop with a validation error instead of
sending the request whenever validateMobile rejects the number. -/
theorem validateMobile_spec :
    (∀ m : String, validateMobile m = true ↔
       (m.data.length = 10 ∧ (∀ c ∈ m.data, '0' ≤ c ∧ c ≤ '9') ∧
        ∃ c rest, m.data = c :: rest ∧ '6' ≤ c ∧ c ≤ '9')) ∧
    (∀ m : String, validateMobile m = false →
       createHalfOrderMobileGate m = ClientAction.showValidationError ∧
       joinHalfOrderMobileGate m = ClientAction.showValidationError) := by
  constructor
  · intro m
    constructor
    · intro h
      unfold validateMobile at h
      cases hd : m.data with
      | nil => rw [hd] at h; exact Bool.noConfusion h
      | cons c rest =>
        rw [hd] at h
        simp only [Bool.and_eq_true, decide_eq_true_eq, List.all_eq_true,
          beq_iff_eq] at h
        obtain ⟨⟨⟨h6, h9⟩, hlen⟩, hdig⟩ := h
        refine ⟨by simp [hlen], ?_, c, rest, rfl, h6, h9⟩
        intro d hdm
        rcases List.mem_cons.mp hdm with hdm | hdm
        · subst hdm
          exact ⟨le_trans (by decide) h6, le_trans h9 (by decide)⟩
        · have := hdig d hdm
          simpa using this
    · rintro ⟨hlen, hdig, c, rest, hd, h6, h9⟩
      unfold validateMobile
      rw [hd]
      simp only [Bool.and_eq_true, decide_eq_true_eq, List.all_eq_true,
        beq_iff_eq]
      refine ⟨⟨⟨h6, h9⟩, ?_⟩, ?_⟩
      · rw [hd] at hlen
        simpa using hlen
      · intro d hdm
        have := hdig d (by rw [hd]; exact List.mem_cons_of_mem c hdm)
        simpa using this
  · intro m h
    unfold createHalfOrderMobileGate joinHalfOrderMobileGate
    rw [h]
    exact ⟨rfl, rfl⟩

/-- Witness: C10 evaluated at the rejected number 12345 and the accepted
number 9876543210. -/
theorem validateMobile_spec_witness :
    createHalfOrderMobileGate "12345" = ClientAction.showValidationError ∧
    joinHalfOrderMobileGate "12345" = ClientAction.showValidationError :=
  validateMobile_spec.2 "12345" (by decide)

/-- Witness: C1 evaluated on the fixture session with the two concurrent
joiners T2 and T3. -/
theorem concurrent_joins_exactly_one_witness :
    (runJoins 1 stOne [reqT2, reqT3]).2.countP exceptOk = 1 ∧
    (∃ s2, findSession (runJoins 1 stOne [reqT2, reqT3]).1 1 = some s2 ∧
       s2.status = SStatus.JOINED) ∧
    (∃ po, (runJoins 1 stOne [reqT2, reqT3]).1.pairs = stOne.pairs ++ [po] ∧
       po.session_id = 1) ∧
    (∀ res ∈ (runJoins 1 stOne [reqT2, reqT3]).2,
       exceptOk res = true ∨ res = Except.error JoinErr.SessionNotJoinableError) :=
  concurrent_joins_exactly_one stOne 1 sessT1 [reqT2, reqT3]
    (by decide) (by decide) (by decide) (by decide) (by decide) (by decide) (by decide)

/-- Outcome of Join on the pairing table: either the table is untouched, or
the duplicate-join guard held and exactly one row with the locked session's
key was appended. -/
theorem join_pairs_cases (st : CoordState) (sid : Nat) (jt jn jm : String)
    (hp now : Int) :
    (join st sid jt jn jm hp now).1.pairs = st.pairs ∨
    (hasPairFor st sid jt = false ∧
      ∃ po, po.session_id = sid ∧ po.joiner_table_no = jt ∧
        (join st sid jt jn jm hp now).1.pairs = st.pairs ++ [po]) := by
  unfold join
  cases h : findSession st sid with
  | none => left; rfl
  | some s =>
    dsimp only
    by_cases h1 : s.status = SStatus.ACTIVE
    · rw [if_pos h1]
      by_cases h2 : now < s.expires_at
      · rw [if_pos h2]
        by_cases h3 : hasPairFor st sid jt = true
        · rw [if_pos h3]; left; rfl
        · rw [if_neg h3]
          by_cases h4 : jt = s.table_no
          · rw [if_pos h4]; left; rfl
          · rw [if_neg h4]
            right
            exact ⟨Bool.eq_false_iff.mpr h3, _, rfl, rfl, rfl⟩
      · rw [if_neg h2]; left; rfl
    · rw [if_neg h1]; left; rfl

/-- Every reachable store satisfies the duplicate-join invariant. -/
theorem reach_pairsKeyUnique (cfg : Config) (st : CoordState) (h : Reach cfg st) :
    pairsKeyUnique st := by
  induction h with
  | init => exact List.Pairwise.nil
  | stepCreate st r t cn cm m mn now _ ih =>
    unfold pairsKeyUnique at ih ⊢
    rw [createSession_pairs]
    exact ih
  | stepJoin st sid jt jn jm hp now _ ih =>
    unfold pairsKeyUnique at ih ⊢
    rcases join_pairs_cases st sid jt jn jm hp now with hc | ⟨hno, po, hsid, hjt, hc⟩
    · rw [hc]; exact ih
    · rw [hc, List.pairwise_append]
      refine ⟨ih, List.pairwise_singleton _ _, ?_⟩
      intro p hp2 q hq
      rw [List.mem_singleton] at hq
      subst hq
      rw [hasPairFor_eq_false_iff] at hno
      intro hk
      exact hno p hp2 ⟨hk.1.trans hsid, hk.2.trans hjt⟩
  | stepCancel st sid priv now _ ih =>
    unfold pairsKeyUnique at ih ⊢
    rw [cancel_pairs]
    exact ih
  | stepSweep st now _ ih => exact ih

/-- C2 counterexample: T2 joins the fixture session successfully; a second
Join by the same (sessionId, tableNo) creates no second PairedOrder row, but
it fails with SessionNotJoinableError — not AlreadyJoinedError as the claim
states — because the session is already JOINED. -/
theorem second_join_error_mismatch :
    exceptOk (join stOne 1 "T2" "Priya Sharma" "9876543211" 100 1).2 = true ∧
    (join stJoined 1 "T2" "Priya Sharma" "9876543211" 100 2).2 =
      Except.error JoinErr.SessionNotJoinableError ∧
    (join stJoined 1 "T2" "Priya Sharma" "9876543211" 100 2).2 ≠
      Except.error JoinErr.AlreadyJoinedError ∧
    (join stJoined 1 "T2" "Priya Sharma" "9876543211" 100 2).1.pairs =
      stJoined.pairs ∧
    stJoined.pairs.length = 1 := by
  refine ⟨rfl, rfl, ?_, rfl, rfl⟩
  have heval : (join stJoined 1 "T2" "Priya Sharma" "9876543211" 100 2).2 =
      Except.error JoinErr.SessionNotJoinableError := rfl
  rw [heval]
  simp

/-- C2 (amended): at every reachable state at most one PairedOrder row
exists per (session_id, joiner_table_no); a repeated Join with the key of an
earlier successful one creates no second row and fails with the
SessionNotJoinableError conflict (the session being already JOINED), while
AlreadyJoinedError is raised exactly when a matching row exists and the
session is still ACTIVE and unexpired. -/
theorem paired_order_duplicate_join_guard :
    (∀ cfg st, Reach cfg st → pairsKeyUnique st) ∧
    (∀ st sid s jt jn jm hp now, findSession st sid = some s →
       s.status = SStatus.JOINED →
       join st sid jt jn jm hp now = (st, Except.error JoinErr.SessionNotJoinableError)) ∧
    (∀ st sid s jt jn jm hp now, findSession st sid = some s →
       s.status = SStatus.ACTIVE → now < s.expires_at → hasPairFor st sid jt = true →
       join st sid jt jn jm hp now = (st, Except.error JoinErr.AlreadyJoinedError)) := by
  refine ⟨fun cfg st h => reach_pairsKeyUnique cfg st h, ?_, ?_⟩
  · intro st sid s jt jn jm hp now hf hs
    exact join_not_active st sid s jt jn jm hp now hf (by rw [hs]; decide)
  · intro st sid s jt jn jm hp now hf hs hl hpair
    exact join_already_joined st sid s jt jn jm hp now hf hs hl hpair

/-- Witness: the amended C2 evaluated at the store where T2 already joined
the fixture session. -/
theorem paired_order_duplicate_join_guard_witness :
    join stJoined 1 "T4" "Neha Gupta" "9876543213" 100 2 =
      (stJoined, Except.error JoinErr.SessionNotJoinableError) :=
  paired_order_duplicate_join_guard.2.1 stJoined 1
    { sessT1 with
      status := SStatus.JOINED, joined_by_table_no := some "T2",
      joined_by_customer_name := some "Priya Sharma", joined_at := some 1 }
    "T4" "Neha Gupta" "9876543213" 100 2 (by decide) rfl

/-- C5: a Join attempt against a session whose stored status is still ACTIVE
but whose expiry has passed fails with SessionExpiredError, transitions the
row to EXPIRED within the same transaction, creates no pairing, and never
succeeds. -/
theorem join_expired_session (st : CoordState) (sid : Nat) (s : Session)
    (jt jn jm : String) (hp now : Int)
    (hfind : findSession st sid = some s) (hact : s.status = SStatus.ACTIVE)
    (hexp : s.expires_at ≤ now) :
    (join st sid jt jn jm hp now).2 = Except.error JoinErr.SessionExpiredError ∧
    findSession (join st sid jt jn jm hp now).1 sid =
      some { s with status := SStatus.EXPIRED } ∧
    (join st sid jt jn jm hp now).1.pairs = st.pairs ∧
    ∀ po, (join st sid jt jn jm hp now).2 ≠ Except.ok po := by
  have hj := join_expired_lazy st sid s jt jn jm hp now hfind hact hexp
  rw [hj]
  refine ⟨rfl, ?_, rfl, fun po hc => Except.noConfusion hc⟩
  have h2 := findSession_setSession st sid
    (fun x => { x with status := SStatus.EXPIRED }) (fun x => rfl)
  rw [hfind] at h2
  exact h2

/-- Witness: C5 evaluated on the stale fixture session at time 10. -/
theorem join_expired_session_witness :
    (join stStale 2 "T9" "Asha Mehta" "9876543214" 100 10).2 =
      Except.error JoinErr.SessionExpiredError :=
  (join_expired_session stStale 2 sessStale "T9" "Asha Mehta" "9876543214" 100 10
    (by decide) (by decide) (by decide)).1

/-- Cancel of a session that is not ACTIVE fails for every actor. -/
theorem cancel_not_active (cfg : Config) (st : CoordState) (sid : Nat) (s : Session)
    (priv : Bool) (now : Int) (hfind : findSession st sid = some s)
    (hs : s.status ≠ SStatus.ACTIVE) :
    cancel cfg st sid priv now = (st, Except.error CancelErr.SessionNotCancellableError) := by
  unfold cancel
  rw [hfind]
  dsimp only
  rw [if_neg hs]

/-- A privileged staff cancel of an ACTIVE session always succeeds. -/
theorem cancel_privileged_ok (cfg : Config) (st : CoordState) (sid : Nat) (s : Session)
    (now : Int) (hfind : findSession st sid = some s)
    (hact : s.status = SStatus.ACTIVE) :
    cancel cfg st sid true now =
      (setSession st sid (fun x => { x with status := SStatus.CANCELLED }),
       Except.ok ()) := by
  unfold cancel
  rw [hfind]
  dsimp only
  rw [if_pos hact, if_pos rfl]

/-- A customer cancel of an ACTIVE session within the window succeeds. -/
theorem cancel_customer_in_window (cfg : Config) (st : CoordState) (sid : Nat)
    (s : Session) (now : Int) (hfind : findSession st sid = some s)
    (hact : s.status = SStatus.ACTIVE)
    (hw : now - s.created_at ≤ cfg.cancelWindowMinutes) :
    cancel cfg st sid false now =
      (setSession st sid (fun x => { x with status := SStatus.CANCELLED }),
       Except.ok ()) := by
  unfold cancel
  rw [hfind]
  dsimp only
  rw [if_pos hact, if_neg Bool.false_ne_true, if_pos hw]

/-- A customer cancel of an ACTIVE session outside the window fails. -/
theorem cancel_customer_late (cfg : Config) (st : CoordState) (sid : Nat)
    (s : Session) (now : Int) (hfind : findSession st sid = some s)
    (hact : s.status = SStatus.ACTIVE)
    (hw : cfg.cancelWindowMinutes < now - s.created_at) :
    cancel cfg st sid false now = (st, Except.error CancelErr.CancelWindowExpiredError) := by
  unfold cancel
  rw [hfind]
  dsimp only
  rw [if_pos hact, if_neg Bool.false_ne_true, if_neg (not_le.mpr hw)]

/-- C6: for an ACTIVE session a customer cancel succeeds exactly when the
elapsed time since created_at is within the cancel window, a privileged
staff cancel always succeeds, and no actor can cancel a session that has
reached a terminal state. -/
theorem cancel_window_rule (cfg : Config) (st : CoordState) (sid : Nat) (s : Session)
    (now : Int) (hfind : findSession st sid = some s) :
    (s.status = SStatus.ACTIVE →
       ((cancel cfg st sid false now).2 = Except.ok () ↔
         now - s.created_at ≤ cfg.cancelWindowMinutes)) ∧
    (s.status = SStatus.ACTIVE → (cancel cfg st sid true now).2 = Except.ok ()) ∧
    (∀ priv, s.status ≠ SStatus.ACTIVE →
       (cancel cfg st sid priv now).2 =
         Except.error CancelErr.SessionNotCancellableError) := by
  refine ⟨fun hact => ⟨?_, ?_⟩, fun hact => ?_, fun priv hs => ?_⟩
  · intro hok
    by_contra hw
    rw [cancel_customer_late cfg st sid s now hfind hact (not_le.mp hw)] at hok
    exact Except.noConfusion hok
  · intro hw
    rw [cancel_customer_in_window cfg st sid s now hfind hact hw]
  · rw [cancel_privileged_ok cfg st sid s now hfind hact]
  · rw [cancel_not_active cfg st sid s priv now hfind hs]

/-- Witness: C6 evaluated on the fixture session — the creating customer
cancels at minute 4, inside the five-minute window. -/
theorem cancel_window_rule_witness :
    (cancel defaultConfig stOne 1 false 4).2 = Except.ok () :=
  ((cancel_window_rule defaultConfig stOne 1 sessT1 4 (by decide)).1 rfl).mpr (by decide)

/-- C7: every PairedOrder created by a successful Join has total_price equal
to the creator's half-price plus the joiner's half-price of the same menu
item, with no further amount such as a join fee added. -/
theorem paired_order_total_price (st : CoordState) (sid : Nat) (jt jn jm : String)
    (hp now : Int) (po : PairedOrder)
    (h : (join st sid jt jn jm hp now).2 = Except.ok po) :
    po.total_price = hp + hp := by
  unfold join at h
  cases hf : findSession st sid with
  | none => rw [hf] at h; exact Except.noConfusion h
  | some s =>
    rw [hf] at h
    dsimp only at h
    by_cases h1 : s.status = SStatus.ACTIVE
    · rw [if_pos h1] at h
      by_cases h2 : now < s.expires_at
      · rw [if_pos h2] at h
        by_cases h3 : hasPairFor st sid jt = true
        · rw [if_pos h3] at h
          exact Except.noConfusion h
        · rw [if_neg h3] at h
          by_cases h4 : jt = s.table_no
          · rw [if_pos h4] at h
            exact Except.noConfusion h
          · rw [if_neg h4] at h
            have h5 := Except.ok.inj h
            rw [← h5]
      · rw [if_neg h2] at h
        exact Except.noConfusion h
    · rw [if_neg h1] at h
      exact Except.noConfusion h

/-- Witness: C7 evaluated on the fixture join of T2, whose pairing totals
twice the half-price 100. -/
theorem paired_order_total_price_witness :
    ({ id := 1, session_id := 1, restaurant_id := 1, menu_item_id := 1,
       menu_item_name := "Paneer Tikka", total_price := 200,
       joiner_table_no := "T2", joiner_customer_name := "Priya Sharma",
       joiner_customer_mobile := "9876543211", status := PStatus.PENDING,
       created_at := 1, completed_at := none,
       order_id := none } : PairedOrder).total_price = 100 + 100 :=
  paired_order_total_price stOne 1 "T2" "Priya Sharma" "9876543211" 100 1 _ rfl

/-- Membership in the two-step duplicate-session query equals the blocking
predicate. -/
theorem mem_liveMatches_iff (st : CoordState) (r m : Nat) (now : Int) (s : Session) :
    s ∈ (st.sessions.filter (fun s => decide (s.restaurant_id = r ∧
          s.menu_item_id = m ∧ s.status = SStatus.ACTIVE))).filter
        (fun s => decide (now < s.expires_at)) ↔
      s ∈ st.sessions ∧ blocksCreation r m now s := by
  simp only [List.mem_filter, decide_eq_true_eq, blocksCreation]
  tauto

/-- CreateSession fails with DuplicateSessionError carrying the identifying
triple of every blocking live session whenever one exists. -/
theorem createSession_blocked (cfg : Config) (st : CoordState) (r : Nat)
    (t cn cm : String) (m : Nat) (mn : String) (now : Int)
    (hex : ∃ s ∈ st.sessions, blocksCreation r m now s) :
    ∃ infos, (createSession cfg st r t cn cm m mn now).2 =
        Except.error (CreateErr.DuplicateSessionError infos) ∧ infos ≠ [] ∧
      ∀ s ∈ st.sessions, blocksCreation r m now s →
        (s.id, s.table_no, s.customer_name) ∈ infos := by
  obtain ⟨s0, hs0, hb0⟩ := hex
  have hmem : s0 ∈ (st.sessions.filter (fun s => decide (s.restaurant_id = r ∧
      s.menu_item_id = m ∧ s.status = SStatus.ACTIVE))).filter
      (fun s => decide (now < s.expires_at)) :=
    (mem_liveMatches_iff st r m now s0).mpr ⟨hs0, hb0⟩
  unfold createSession
  dsimp only
  rw [if_neg (by rw [List.isEmpty_iff]; exact List.ne_nil_of_mem hmem)]
  refine ⟨_, rfl,
    fun hcontra => List.ne_nil_of_mem hmem (List.map_eq_nil_iff.mp hcontra), ?_⟩
  intro s hs hb
  exact List.mem_map.mpr ⟨s, (mem_liveMatches_iff st r m now s).mpr ⟨hs, hb⟩, rfl⟩

/-- CreateSession succeeds with a fresh ACTIVE row once no live blocking
session remains. -/
theorem createSession_free (cfg : Config) (st : CoordState) (r : Nat)
    (t cn cm : String) (m : Nat) (mn : String) (now : Int)
    (hfree : ∀ s ∈ st.sessions, ¬ blocksCreation r m now s) :
    ∃ sess, (createSession cfg st r t cn cm m mn now).2 = Except.ok sess ∧
      sess.status = SStatus.ACTIVE ∧ sess.created_at = now ∧
      sess.expires_at = now + cfg.ttlMinutes := by
  unfold createSession
  dsimp only
  rw [if_pos ?hc]
  case hc =>
    rw [List.isEmpty_iff, List.eq_nil_iff_forall_not_mem]
    intro s hs
    rw [mem_liveMatches_iff] at hs
    exact hfree s hs.1 hs.2
  exact ⟨_, rfl, rfl, rfl, rfl⟩

/-- C4: CreateSession for a (restaurant, menu item) pair fails with
DuplicateSessionError — carrying the session id, table and customer name of
every blocking session — exactly while a live ACTIVE, unexpired session for
the pair exists, and succeeds once every such session is JOINED, EXPIRED,
CANCELLED or past its expiry. -/
theorem create_session_duplicate_guard (cfg : Config) (st : CoordState) (r : Nat)
    (t cn cm : String) (m : Nat) (mn : String) (now : Int) :
    ((∃ s ∈ st.sessions, blocksCreation r m now s) →
       ∃ infos, (createSession cfg st r t cn cm m mn now).2 =
           Except.error (CreateErr.DuplicateSessionError infos) ∧ infos ≠ [] ∧
         ∀ s ∈ st.sessions, blocksCreation r m now s →
           (s.id, s.table_no, s.customer_name) ∈ infos) ∧
    ((∀ s ∈ st.sessions, s.restaurant_id = r → s.menu_item_id = m →
        s.status = SStatus.JOINED ∨ s.status = SStatus.EXPIRED ∨
        s.status = SStatus.CANCELLED ∨ s.expires_at ≤ now) →
       ∃ sess, (createSession cfg st r t cn cm m mn now).2 = Except.ok sess ∧
         sess.status = SStatus.ACTIVE ∧ sess.created_at = now ∧
         sess.expires_at = now + cfg.ttlMinutes) := by
  refine ⟨createSession_blocked cfg st r t cn cm m mn now, fun hterm => ?_⟩
  refine createSession_free cfg st r t cn cm m mn now ?_
  intro s hs hb
  rcases hterm s hs hb.1 hb.2.1 with h | h | h | h
  · rw [hb.2.2.1] at h; exact SStatus.noConfusion h
  · rw [hb.2.2.1] at h; exact SStatus.noConfusion h
  · rw [hb.2.2.1] at h; exact SStatus.noConfusion h
  · exact absurd hb.2.2.2 (not_lt.mpr h)

/-- Witness: C4 evaluated twice — a second CreateSession at minute 1 is
blocked by the live fixture session, while at minute 10 the stale store no
longer blocks and creation succeeds. -/
theorem create_session_duplicate_guard_witness :
    (∃ infos, (createSession defaultConfig stOne 1 "T2" "Priya Sharma" "9876543211" 1
        "Paneer Tikka" 1).2 =
        Except.error (CreateErr.DuplicateSessionError infos) ∧ infos ≠ [] ∧
      ∀ s ∈ stOne.sessions, blocksCreation 1 1 1 s →
        (s.id, s.table_no, s.customer_name) ∈ infos) ∧
    (∃ sess, (createSession defaultConfig stStale 1 "T2" "Priya Sharma" "9876543211" 1
        "Paneer Tikka" 10).2 = Except.ok sess ∧
      sess.status = SStatus.ACTIVE ∧ sess.created_at = 10 ∧
      sess.expires_at = 10 + defaultConfig.ttlMinutes) :=
  ⟨(create_session_duplicate_guard defaultConfig stOne 1 "T2" "Priya Sharma"
      "9876543211" 1 "Paneer Tikka" 1).1 ⟨sessT1, by decide, by decide⟩,
   (create_session_duplicate_guard defaultConfig stStale 1 "T2" "Priya Sharma"
      "9876543211" 1 "Paneer Tikka" 10).2 (by decide)⟩

/-- A row update that preserves both timestamps preserves the timestamp
invariant. -/
theorem setSession_timestamps (st : CoordState) (sid : Nat) (f : Session → Session)
    (hf : ∀ x, (f x).created_at = x.created_at ∧ (f x).expires_at = x.expires_at)
    (h : timestampsOrdered st) : timestampsOrdered (setSession st sid f) := by
  intro s hs
  rcases List.mem_map.mp hs with ⟨x, hx, rfl⟩
  by_cases hid : x.id = sid
  · rw [if_pos hid, (hf x).1, (hf x).2]
    exact h x hx
  · rw [if_neg hid]
    exact h x hx

/-- CreateSession preserves the timestamp invariant when the configured TTL
is strictly positive. -/
theorem createSession_timestamps (cfg : Config) (st : CoordState) (r : Nat)
    (t cn cm : String) (m : Nat) (mn : String) (now : Int)
    (httl : 0 < cfg.ttlMinutes) (h : timestampsOrdered st) :
    timestampsOrdered (createSession cfg st r t cn cm m mn now).1 := by
  unfold createSession
  dsimp only
  split
  · intro s hs
    rcases List.mem_append.mp hs with hs | hs
    · exact h s hs
    · rw [List.mem_singleton] at hs
      subst hs
      exact lt_add_of_pos_right now httl
  · exact h

/-- Join preserves the timestamp invariant. -/
theorem join_timestamps (st : CoordState) (sid : Nat) (jt jn jm : String)
    (hp now : Int) (h : timestampsOrdered st) :
    timestampsOrdered (join st sid jt jn jm hp now).1 := by
  unfold join
  cases hf : findSession st sid with
  | none => exact h
  | some s =>
    dsimp only
    by_cases h1 : s.status = SStatus.ACTIVE
    · rw [if_pos h1]
      by_cases h2 : now < s.expires_at
      · rw [if_pos h2]
        by_cases h3 : hasPairFor st sid jt = true
        · rw [if_pos h3]; exact h
        · rw [if_neg h3]
          by_cases h4 : jt = s.table_no
          · rw [if_pos h4]; exact h
          · rw [if_neg h4]
            exact setSession_timestamps st sid _ (fun x => ⟨rfl, rfl⟩) h
      · rw [if_neg h2]
        exact setSession_timestamps st sid _ (fun x => ⟨rfl, rfl⟩) h
    · rw [if_neg h1]; exact h

/-- Cancel preserves the timestamp invariant. -/
theorem cancel_timestamps (cfg : Config) (st : CoordState) (sid : Nat) (priv : Bool)
    (now : Int) (h : timestampsOrdered st) :
    timestampsOrdered (cancel cfg st sid priv now).1 := by
  unfold cancel
  cases hf : findSession st sid with
  | none => exact h
  | some s =>
    dsimp only
    by_cases h1 : s.status = SStatus.ACTIVE
    · rw [if_pos h1]
      by_cases h2 : priv = true
      · rw [if_pos h2]
        exact setSession_timestamps st sid _ (fun x => ⟨rfl, rfl⟩) h
      · rw [if_neg h2]
        by_cases h3 : now - s.created_at ≤ cfg.cancelWindowMinutes
        · rw [if_pos h3]
          exact setSession_timestamps st sid _ (fun x => ⟨rfl, rfl⟩) h
        · rw [if_neg h3]; exact h
    · rw [if_neg h1]; exact h

/-- The scheduler sweep preserves the timestamp invariant. -/
theorem expireSweep_timestamps (st : CoordState) (now : Int)
    (h : timestampsOrdered st) : timestampsOrdered (expireSweep st now) := by
  intro s hs
  rcases List.mem_map.mp hs with ⟨x, hx, rfl⟩
  by_cases hc : x.status = SStatus.ACTIVE ∧ x.expires_at ≤ now
  · rw [if_pos hc]
    exact h x hx
  · rw [if_neg hc]
    exact h x hx

/-- Every reachable store satisfies the timestamp invariant when the TTL is
strictly positive. -/
theorem reach_timestampsOrdered (cfg : Config) (st : CoordState)
    (httl : 0 < cfg.ttlMinutes) (h : Reach cfg st) : timestampsOrdered st := by
  induction h with
  | init => intro s hs; exact absurd hs (List.not_mem_nil s)
  | stepCreate st r t cn cm m mn now _ ih =>
    exact createSession_timestamps cfg st r t cn cm m mn now httl ih
  | stepJoin st sid jt jn jm hp now _ ih =>
    exact join_timestamps st sid jt jn jm hp now ih
  | stepCancel st sid priv now _ ih =>
    exact cancel_timestamps cfg st sid priv now ih
  | stepSweep st now _ ih =>
    exact expireSweep_timestamps st now ih

/-- If CreateSession answers ok, the returned session is the freshly
inserted ACTIVE row with created_at = now and expires_at = now + ttl. -/
theorem createSession_ok_fields (cfg : Config) (st : CoordState) (r : Nat)
    (t cn cm : String) (m : Nat) (mn : String) (now : Int) (sess : Session)
    (h : (createSession cfg st r t cn cm m mn now).2 = Except.ok sess) :
    sess.status = SStatus.ACTIVE ∧ sess.created_at = now ∧
      sess.expires_at = now + cfg.ttlMinutes := by
  unfold createSession at h
  dsimp only at h
  split at h
  · have h5 := Except.ok.inj h
    rw [← h5]
    exact ⟨rfl, rfl, rfl⟩
  · exact Except.noConfusion h

/-- C8: in every reachable store with a strictly positive configured TTL,
every HalfOrderSession satisfies expires_at > created_at; moreover a
successful CreateSession returns an ACTIVE row with created_at = now and
expires_at = now + ttl, and no operation of the coordinator ever edits the
two timestamps afterwards (each step preserves the invariant). -/
theorem session_expiry_after_creation (cfg : Config) (st : CoordState)
    (httl : 0 < cfg.ttlMinutes) (h : Reach cfg st) :
    (∀ s ∈ st.sessions, s.created_at < s.expires_at) ∧
    (∀ r t cn cm m mn now sess,
       (createSession cfg st r t cn cm m mn now).2 = Except.ok sess →
       sess.status = SStatus.ACTIVE ∧ sess.created_at = now ∧
         sess.expires_at = now + cfg.ttlMinutes) :=
  ⟨reach_timestampsOrdered cfg st httl h,
   fun r t cn cm m mn now sess hok =>
     createSession_ok_fields cfg st r t cn cm m mn now sess hok⟩

/-- Witness: C8 evaluated on the store reached by one CreateSession call at
time 0 under the default configuration, at the row that call inserted. -/
theorem session_expiry_after_creation_witness :
    ({ id := 1, restaurant_id := 1, table_no := "T1", menu_item_id := 1,
       menu_item_name := "Paneer Tikka", customer_name := "Rajesh Kumar",
       customer_mobile := "9876543210", status := SStatus.ACTIVE,
       created_at := 0, expires_at := 30, joined_by_table_no := none,
       joined_by_customer_name := none, joined_at := none } : Session).created_at <
    ({ id := 1, restaurant_id := 1, table_no := "T1", menu_item_id := 1,
       menu_item_name := "Paneer Tikka", customer_name := "Rajesh Kumar",
       customer_mobile := "9876543210", status := SStatus.ACTIVE,
       created_at := 0, expires_at := 30, joined_by_table_no := none,
       joined_by_customer_name := none, joined_at := none } : Session).expires_at :=
  (session_expiry_after_creation defaultConfig stCreated (by decide)
    (Reach.stepCreate initState 1 "T1" "Rajesh Kumar" "9876543210" 1
      "Paneer Tikka" 0 Reach.init)).1 _ (by decide)

/-- A strictly positive remaining-minutes count implies the expiry instant
lies strictly in the future. -/
theorem enhanced_pos_implies_future (e now : Int)
    (h : jsGtZero (getTimeRemainingEnhancedInline (JsDateInput.jstrValid e) now) = true) :
    now < e := by
  unfold getTimeRemainingEnhancedInline jsGtZero at h
  simp only [jsFalsy, jsNewDate, Option.map_some', Bool.false_eq_true, if_false,
    decide_eq_true_eq] at h
  by_contra hc
  rw [not_lt] at hc
  rw [max_eq_left (by omega : e - now ≤ 0),
      Int.fdiv_eq_ediv _ (by norm_num : (0:Int) ≤ 60000), Int.zero_ediv] at h
  exact lt_irrefl 0 h

/-- If CreateSession rejects, some stored session was live for the pair. -/
theorem createSession_error_blocker (cfg : Config) (st : CoordState) (r : Nat)
    (t cn cm : String) (m : Nat) (mn : String) (now : Int) (e : CreateErr)
    (h : (createSession cfg st r t cn cm m mn now).2 = Except.error e) :
    ∃ s ∈ st.sessions, blocksCreation r m now s := by
  by_contra hno
  push_neg at hno
  obtain ⟨sess, hok, _⟩ := createSession_free cfg st r t cn cm m mn now
    (fun s hs hb => hno s hs hb)
  rw [hok] at h
  exact Except.noConfusion h

/-- A successful Join presupposes the locked row was ACTIVE and unexpired. -/
theorem join_ok_livecheck (st : CoordState) (sid : Nat) (jt jn jm : String)
    (hp now : Int) (po : PairedOrder)
    (h : (join st sid jt jn jm hp now).2 = Except.ok po) :
    ∃ s, findSession st sid = some s ∧ s.status = SStatus.ACTIVE ∧
      now < s.expires_at := by
  unfold join at h
  cases hf : findSession st sid with
  | none => rw [hf] at h; exact Except.noConfusion h
  | some s =>
    rw [hf] at h
    dsimp only at h
    by_cases h1 : s.status = SStatus.ACTIVE
    · by_cases h2 : now < s.expires_at
      · exact ⟨s, rfl, h1, h2⟩
      · rw [if_pos h1, if_neg h2] at h
        exact Except.noConfusion h
    · rw [if_neg h1] at h
      exact Except.noConfusion h

/-- C3 (amended): both customer menu-page listing paths treat a session as
live only when it is stored ACTIVE and its expiry is strictly in the future,
the duplicate-session check of CreateSession blocks only on such sessions,
and Join succeeds only against such a session; the counter-dashboard listing,
by contrast, filters on ACTIVE status alone, and Cancel validates status
without re-checking expiry. -/
theorem liveness_check_paths (st : CoordState) (r : Nat) (now : Int) :
    (∀ s ∈ fetchHalfOrdersMenuOptimized st r now,
       s.status = SStatus.ACTIVE ∧ now < s.expires_at) ∧
    (∀ s ∈ fetchHalfOrdersMenuEnhanced st r now,
       s.status = SStatus.ACTIVE ∧ now < s.expires_at) ∧
    (∀ cfg t cn cm m mn e,
       (createSession cfg st r t cn cm m mn now).2 = Except.error e →
       ∃ s ∈ st.sessions, blocksCreation r m now s) ∧
    (∀ sid jt jn jm hp po, (join st sid jt jn jm hp now).2 = Except.ok po →
       ∃ s, findSession st sid = some s ∧ s.status = SStatus.ACTIVE ∧
         now < s.expires_at) := by
  refine ⟨?_, ?_, ?_, ?_⟩
  · intro s hs
    unfold fetchHalfOrdersMenuOptimized listActive at hs
    simp only [List.mem_filter, decide_eq_true_eq] at hs
    exact ⟨hs.1.2.2, hs.2⟩
  · intro s hs
    unfold fetchHalfOrdersMenuEnhanced listActive at hs
    simp only [List.mem_filter, decide_eq_true_eq] at hs
    exact ⟨hs.1.2.2, enhanced_pos_implies_future s.expires_at now hs.2⟩
  · intro cfg t cn cm m mn e h
    exact createSession_error_blocker cfg st r t cn cm m mn now e h
  · intro sid jt jn jm hp po h
    exact join_ok_livecheck st sid jt jn jm hp now po h

/-- C3 counterexample: at time 10 the stale fixture session — stored ACTIVE
with expiry 5 already past — is kept by the counter-dashboard listing
filter, so that code path treats ACTIVE status alone as proof of liveness. -/
theorem counter_dashboard_lists_stale :
    counterDashboardHalfOrderFilter sessStale = true ∧
    sessStale ∈ fetchHalfOrdersCounter [sessStale] ∧
    ¬((10:Int) < sessStale.expires_at) := by
  refine ⟨rfl, by decide, by decide⟩

/-- Witness: the amended C3 evaluated on the fixture store at time 1, where
the optimized menu listing shows the fixture session. -/
theorem liveness_check_paths_witness :
    sessT1.status = SStatus.ACTIVE ∧ (1:Int) < sessT1.expires_at :=
  (liveness_check_paths stOne 1 1).1 sessT1 (by decide)

end SplitEat
